import Mathlib

/-!
Verification of the windowed pagination controller of the MineScan Discord bot
(`src/main.py`), shallowly embedded in Lean.

The embedding covers:
* `fetch_servers` (lines 27-33) over an explicit model of the HTTP layer,
  where a raised Python exception is an `Except.error`;
* `map_authmode` (lines 107-115);
* `ServerButton.callback` (lines 178-202), the single-item detail resolver,
  with Python's `datetime.fromisoformat` modelled by an executable shape
  check `isoParse`;
* `PageButton.callback` (lines 211-233), the navigation state machine over
  the `ServerInfoButtons` view state (page number, start index, loaded
  servers, filter params), instrumented to record the fetch requests it
  issues.
-/

namespace MineScan

/-- Geolocation sub-record of a server item (the `geolocation` dict);
each display field may be absent. -/
structure Geo where
  country : Option String
  countryName : Option String
  city : Option String
deriving DecidableEq

/-- A server record as consumed by the bot: a dict whose display fields may
each be missing (`none`). Field names follow the JSON keys used in
`src/main.py`. -/
structure Item where
  serverip : Option String
  version : Option String
  geolocation : Option Geo
  lastSeen : Option String
  authmode : Option String
  onlinePlayers : Option Int
  maxPlayers : Option Int
deriving DecidableEq

/-- An item with every field absent. -/
def Item.blank : Item := ⟨none, none, none, none, none, none, none⟩

/-- A query-parameter value: the bot sends strings and integers. -/
inductive Val where
  | str (s : String)
  | int (n : Int)
deriving DecidableEq

/-- A filter-parameter mapping, as an insertion-ordered association list
(the Python `params` dict). -/
abbrev Params := List (String × Val)

/-- Python dict assignment `d[k] = v`: replace in place if the key exists,
otherwise append. -/
def setKey : Params → String → Val → Params
  | [], k, v => [(k, v)]
  | (k0, v0) :: rest, k, v =>
      if k0 = k then (k, v) :: rest else (k0, v0) :: setKey rest k v

/-- The Python exceptions that the modelled code can raise. -/
inductive PyErr where
  | requestException
  | jsonDecodeError
  | attributeError
  | valueError
deriving DecidableEq

/-- The body of an HTTP response, as seen through `response.json()` and
`.get("servers", [])`: not JSON at all (`.json()` raises), JSON but not an
object (`.get` raises `AttributeError`), or an object whose `servers` key
may be absent. -/
inductive JsonBody where
  | notJson
  | notDict
  | dict (servers : Option (List Item))
deriving DecidableEq

/-- The outcome of `requests.get`: either the request itself raises
(connection error, timeout, ...) or a response with a status code and a
body arrives. -/
inductive HttpResult where
  | transportError
  | response (status : Int) (body : JsonBody)
deriving DecidableEq

/-- The query actually sent by `fetch_servers`: the caller's params with
`page` assigned into the dict (line 29, `params["page"] = page`). The
assignment happens on the callee's own kwargs dict, so the caller's mapping
is untouched. -/
def fetchQuery (page : Int) (params : Params) : Params :=
  setKey params "page" (Val.int page)

/-- `fetch_servers(page, **params)` (lines 27-33), over an HTTP world
`http` mapping the sent query to the outcome of `requests.get`. There is no
`try`/`except` in the source, so a transport error or a malformed payload
propagates as an `Except.error`; a non-200 status returns `[]` before the
body is ever parsed. -/
def fetch_servers (page : Int) (params : Params) (http : Params → HttpResult) :
    Except PyErr (List Item) :=
  match http (fetchQuery page params) with
  | HttpResult.transportError => Except.error PyErr.requestException
  | HttpResult.response status body =>
      if status = 200 then
        match body with
        | JsonBody.notJson => Except.error PyErr.jsonDecodeError
        | JsonBody.notDict => Except.error PyErr.attributeError
        | JsonBody.dict servers => Except.ok (servers.getD [])
      else Except.ok []

/-- Python's `str.lower()` (ASCII case folding suffices for the strings the
bot compares and displays). -/
def pyLower (s : String) : String := String.mk (s.data.map Char.toLower)

/-- Replaces every occurrence of a single character by a string, over the
character list. -/
def replaceChar (pat : Char) (rep : List Char) : List Char → List Char
  | [] => []
  | c :: cs => (if c == pat then rep else [c]) ++ replaceChar pat rep cs

/-- Python's `str.replace(pat, rep)` for the single-character pattern `"Z"`
used at line 182. -/
def pyReplace (s : String) (pat : Char) (rep : String) : String :=
  String.mk (replaceChar pat rep.data s.data)

/-- Icon/text pair returned by `map_authmode`. -/
structure AuthInfo where
  icon : String
  text : String
deriving DecidableEq

/-- The `auth_map` dict literal of `map_authmode` (lines 109-113). -/
def auth_map : List (String × AuthInfo) :=
  [("online", ⟨":white_check_mark:", "Online Mode"⟩),
   ("offline", ⟨":x:", "Offline (Cracked)"⟩),
   ("whitelist", ⟨":lock:", "Whitelisted"⟩)]

/-- `map_authmode` (lines 107-115): `auth_map.get((authmode_str or "").lower(), default)`.
The argument is `Option String` because callers pass `server.get("authmode")`,
which may be `None`; `x or ""` collapses `None` and `""` to `""`. -/
def map_authmode (authmode_str : Option String) : AuthInfo :=
  (auth_map.lookup (pyLower (authmode_str.getD ""))).getD ⟨":question:", "Unknown"⟩

/-- Character classes for `isoParse`: a decimal digit or a fixed literal. -/
inductive CharClass where
  | digit
  | lit (c : Char)

/-- Checks a character list against a shape, position by position. -/
def matchShape : List CharClass → List Char → Bool
  | [], [] => true
  | CharClass.digit :: ps, c :: cs => c.isDigit && matchShape ps cs
  | CharClass.lit a :: ps, c :: cs => (c == a) && matchShape ps cs
  | _, _ => false

/-- Shape of `YYYY-MM-DDTHH:MM:SS`. -/
def isoPat : List CharClass :=
  [CharClass.digit, CharClass.digit, CharClass.digit, CharClass.digit, CharClass.lit '-',
   CharClass.digit, CharClass.digit, CharClass.lit '-',
   CharClass.digit, CharClass.digit, CharClass.lit 'T',
   CharClass.digit, CharClass.digit, CharClass.lit ':',
   CharClass.digit, CharClass.digit, CharClass.lit ':',
   CharClass.digit, CharClass.digit]

/-- Shape of `YYYY-MM-DDTHH:MM:SS+HH:MM` (the form produced by the code's
`.replace("Z", "+00:00")` on the API's UTC timestamps). -/
def isoPatOffset : List CharClass :=
  isoPat ++ [CharClass.lit '+', CharClass.digit, CharClass.digit, CharClass.lit ':',
             CharClass.digit, CharClass.digit]

/-- Executable model of Python's `datetime.fromisoformat` composed with
`.timestamp()`: `some` exactly on ISO-8601 date-time strings of the shapes
above, `none` where Python raises `ValueError`. The numeric value is an
abstract encoding of the digits — the code only embeds it verbatim into a
`<t:...:R>` display string, so only parse success/failure matters. -/
def isoParse (s : String) : Option Int :=
  let cs := s.toList
  if matchShape isoPat cs || matchShape isoPatOffset cs then
    some (((cs.filter Char.isDigit).foldl (fun a c => a * 10 + (c.toNat - 48)) 0 : Nat) : Int)
  else
    none

/-- The embed fields built by `ServerButton.callback` (lines 190-200), one
string per `add_field` value. -/
structure Detail where
  ip : Option String
  version : String
  country : String
  city : String
  lastSeen : String
  authentication : String
  onlinePlayers : String
  maxPlayers : String
deriving DecidableEq

/-- The field block of lines 188-200: every lookup uses `.get` with a
default, so this part never raises. -/
def detailFields (server : Item) (lastSeenDisplay : String) : Detail :=
  let geo := server.geolocation.getD ⟨none, none, none⟩
  let auth := map_authmode server.authmode
  { ip := server.serverip
    version := server.version.getD "Unknown"
    country := ":flag_" ++ pyLower (geo.country.getD "Unknown") ++ ": "
                 ++ geo.countryName.getD "Unknown"
    city := geo.city.getD "Unknown"
    lastSeen := lastSeenDisplay
    authentication := auth.icon ++ " " ++ auth.text
    onlinePlayers := toString (server.onlinePlayers.getD 0)
    maxPlayers := toString (server.maxPlayers.getD 0) }

/-- `ServerButton.callback` (lines 178-202). `if last_seen_raw:` is Python
truthiness, so `None` and `""` both take the `"Unknown"` branch; a non-empty
`lastSeen` goes through `fromisoformat(raw.replace("Z", "+00:00"))`, which
raises `ValueError` (uncaught in the source) on a malformed string. -/
def ServerButton.callback (server : Item) : Except PyErr Detail :=
  let raw := server.lastSeen.getD ""
  if raw = "" then
    Except.ok (detailFields server "Unknown")
  else
    match isoParse (pyReplace raw 'Z' "+00:00") with
    | none => Except.error PyErr.valueError
    | some ts => Except.ok (detailFields server ("<t:" ++ toString ts ++ ":R>"))

/-- Navigation direction: the `direction` attribute of the two `PageButton`s
(`Next` is `1`, `Previous` is `-1`, lines 169-170). -/
inductive Direction where
  | forward
  | backward
deriving DecidableEq

/-- The integer the button stores. -/
def Direction.toInt : Direction → Int
  | Direction.forward => 1
  | Direction.backward => -1

/-- The mutable state of a `ServerInfoButtons` view (lines 152-160):
loaded servers, page number, start index, and the filter params captured at
construction. -/
structure ServerInfoButtons where
  servers : List Item
  page : Int
  start_index : Int
  params : Params
deriving DecidableEq

/-- Result of one navigation callback: the updated view state, plus the
list of `(page, params)` arguments of each `fetch_servers` call it made. -/
structure NavResult where
  state : ServerInfoButtons
  fetches : List (Int × Params)
deriving DecidableEq

/-- `PageButton.callback` (lines 211-233). `fetch` abstracts the value
returned by `fetch_servers` for a given page and params. Note the source
updates `page`/`start_index` unconditionally on a boundary crossing: the
result of the refetch is stored but never inspected. -/
def PageButton.callback (fetch : Int → Params → List Item) (direction : Direction)
    (s : ServerInfoButtons) : NavResult :=
  let si := s.start_index + direction.toInt * 5
  if 20 ≤ si then
    let p := s.page + 1
    { state := { s with page := p, start_index := 0, servers := fetch p s.params },
      fetches := [(p, s.params)] }
  else if si < 0 then
    if s.page = 1 then
      { state := { s with start_index := 0 }, fetches := [] }
    else
      let p := s.page - 1
      { state := { s with page := p, start_index := 15, servers := fetch p s.params },
        fetches := [(p, s.params)] }
  else
    { state := { s with start_index := si }, fetches := [] }

/-- Runs a sequence of navigation events against one view, collecting the
final state and every fetch request issued along the way. -/
def navTrace (fetch : Int → Params → List Item) :
    List Direction → ServerInfoButtons → ServerInfoButtons × List (Int × Params)
  | [], s => (s, [])
  | d :: ds, s =>
      let r := PageButton.callback fetch d s
      let rest := navTrace fetch ds r.state
      (rest.1, r.fetches ++ rest.2)

/-- The window-offset invariant of the pagination state: the stored
`start_index` is a multiple of 5 in `[0, 20)`. -/
def offsetInv (s : ServerInfoButtons) : Prop :=
  0 ≤ s.start_index ∧ s.start_index < 20 ∧ 5 ∣ s.start_index

/-! ### Branch lemmas for the navigation callback -/

/-- Forward step that stays on the page (no boundary crossing). -/
theorem callback_fwd_stay (fetch : Int → Params → List Item) (s : ServerInfoButtons)
    (h1 : 0 ≤ s.start_index) (h2 : s.start_index + 5 < 20) :
    PageButton.callback fetch Direction.forward s =
      ⟨{ s with start_index := s.start_index + 5 }, []⟩ := by
  unfold PageButton.callback
  simp only [Direction.toInt]
  rw [if_neg (by omega), if_neg (by omega)]
  norm_num

/-- Forward step that crosses the page boundary: the page advances and the
refetch result is stored unconditionally. -/
theorem callback_fwd_cross (fetch : Int → Params → List Item) (s : ServerInfoButtons)
    (h : 15 ≤ s.start_index) :
    PageButton.callback fetch Direction.forward s =
      ⟨{ s with page := s.page + 1, start_index := 0,
                servers := fetch (s.page + 1) s.params },
        [(s.page + 1, s.params)]⟩ := by
  unfold PageButton.callback
  simp only [Direction.toInt]
  rw [if_pos (by omega)]

/-- Backward step that stays on the page. -/
theorem callback_bwd_stay (fetch : Int → Params → List Item) (s : ServerInfoButtons)
    (h1 : 5 ≤ s.start_index) (h2 : s.start_index < 20) :
    PageButton.callback fetch Direction.backward s =
      ⟨{ s with start_index := s.start_index - 5 }, []⟩ := by
  unfold PageButton.callback
  simp only [Direction.toInt]
  rw [if_neg (by omega), if_neg (by omega)]
  norm_num
  omega

/-- Backward step at the very start of page 1: clamped to offset 0, no
refetch. -/
theorem callback_bwd_origin (fetch : Int → Params → List Item) (s : ServerInfoButtons)
    (h1 : s.start_index < 5) (hp : s.page = 1) :
    PageButton.callback fetch Direction.backward s =
      ⟨{ s with start_index := 0 }, []⟩ := by
  unfold PageButton.callback
  simp only [Direction.toInt]
  rw [if_neg (by omega), if_pos (by omega), if_pos hp]

/-- Backward step that crosses to the previous page: offset is set to 15
unconditionally and the refetch result is stored. -/
theorem callback_bwd_cross (fetch : Int → Params → List Item) (s : ServerInfoButtons)
    (h1 : s.start_index < 5) (hp : s.page ≠ 1) :
    PageButton.callback fetch Direction.backward s =
      ⟨{ s with page := s.page - 1, start_index := 15,
                servers := fetch (s.page - 1) s.params },
        [(s.page - 1, s.params)]⟩ := by
  unfold PageButton.callback
  simp only [Direction.toInt]
  rw [if_neg (by omega), if_pos (by omega), if_neg hp]

/-- No branch of the navigation callback writes to `params`. -/
theorem callback_params (fetch : Int → Params → List Item) (d : Direction)
    (s : ServerInfoButtons) :
    (PageButton.callback fetch d s).state.params = s.params := by
  unfold PageButton.callback
  dsimp only
  split_ifs <;> rfl

/-- Every fetch request issued by one navigation step carries the session's
own params. -/
theorem callback_fetches_params (fetch : Int → Params → List Item) (d : Direction)
    (s : ServerInfoButtons) :
    ∀ r ∈ (PageButton.callback fetch d s).fetches, r.2 = s.params := by
  unfold PageButton.callback
  dsimp only
  split_ifs <;> simp

/-- `params` is invariant across any event sequence. -/
theorem navTrace_params (fetch : Int → Params → List Item) (ds : List Direction)
    (s : ServerInfoButtons) : (navTrace fetch ds s).1.params = s.params := by
  induction ds generalizing s with
  | nil => rfl
  | cons d ds ih => simp only [navTrace]; rw [ih, callback_params]

/-- Assigning a key absent from the dict appends it, leaving the prior
entries untouched. -/
theorem setKey_not_mem (ps : Params) (k : String) (v : Val)
    (h : k ∉ ps.map Prod.fst) : setKey ps k v = ps ++ [(k, v)] := by
  induction ps with
  | nil => rfl
  | cons p rest ih =>
      obtain ⟨k0, v0⟩ := p
      simp only [List.map_cons, List.mem_cons] at h
      push_neg at h
      unfold setKey
      rw [if_neg (fun e => h.1 e.symm), ih h.2]
      rfl

/-- One navigation step preserves the window-offset invariant, whatever the
fetch returns. -/
theorem callback_offsetInv (fetch : Int → Params → List Item) (d : Direction)
    (s : ServerInfoButtons) (h : offsetInv s) :
    offsetInv (PageButton.callback fetch d s).state := by
  obtain ⟨h0, h20, h5⟩ := h
  unfold offsetInv PageButton.callback
  cases d <;> simp only [Direction.toInt] <;> split_ifs <;> simp_all <;> omega

/-! ### Claim theorems -/

/-- C1 counterexample: at the concrete session `(pageNumber 1, offset 15)`
with a refetch that returns an empty page, a Forward navigation does NOT
keep the prior state — the code advances to `(2, 0)` and stores the empty
list. The transition is not rejected. -/
theorem forward_empty_refetch_cex :
    (PageButton.callback (fun _ _ => []) Direction.forward
        ⟨List.replicate 20 Item.blank, 1, 15, []⟩).state.page = 2 ∧
    (PageButton.callback (fun _ _ => []) Direction.forward
        ⟨List.replicate 20 Item.blank, 1, 15, []⟩).state.start_index = 0 ∧
    (PageButton.callback (fun _ _ => []) Direction.forward
        ⟨List.replicate 20 Item.blank, 1, 15, []⟩).state.servers = [] ∧
    ¬((PageButton.callback (fun _ _ => []) Direction.forward
        ⟨List.replicate 20 Item.blank, 1, 15, []⟩).state.page = 1 ∧
      (PageButton.callback (fun _ _ => []) Direction.forward
        ⟨List.replicate 20 Item.blank, 1, 15, []⟩).state.start_index = 15) := by
  decide

/-- C1 (amended): a Forward navigation from offset 15 always advances to
`(pageNumber + 1, 0)` and stores whatever the refetch of page
`pageNumber + 1` returned — including the empty page; the session does not
stay at its prior `(pageNumber, offset)`. -/
theorem forward_boundary_always_advances (fetch : Int → Params → List Item)
    (s : ServerInfoButtons) (h : s.start_index = 15) :
    PageButton.callback fetch Direction.forward s =
      ⟨{ s with page := s.page + 1, start_index := 0,
                servers := fetch (s.page + 1) s.params },
        [(s.page + 1, s.params)]⟩ :=
  callback_fwd_cross fetch s (by omega)

/-- C1 witness: the amended theorem applied at `(1, 15)` with an
empty-returning fetch. -/
theorem forward_boundary_always_advances_wit :
    ((⟨[], 1, 15, []⟩ : ServerInfoButtons).start_index = 15) ∧
    PageButton.callback (fun _ _ => []) Direction.forward ⟨[], 1, 15, []⟩ =
      ⟨⟨[], 2, 0, []⟩, [(2, [])]⟩ :=
  ⟨rfl, forward_boundary_always_advances (fun _ _ => []) ⟨[], 1, 15, []⟩ rfl⟩

/-- C2 counterexample: `fetch_servers` raises (is an `Except.error`) on a
transport error and on a 200 response whose body is not JSON — it does not
return an empty list there. -/
theorem fetch_servers_raises_cex :
    fetch_servers 1 [] (fun _ => HttpResult.transportError) =
      Except.error PyErr.requestException ∧
    fetch_servers 1 [] (fun _ => HttpResult.response 200 JsonBody.notJson) =
      Except.error PyErr.jsonDecodeError :=
  ⟨rfl, rfl⟩

/-- C2 (amended): for every filter set and page number, `fetch_servers`
returns an empty list only on a non-200 status (and on a 200 object payload
missing the `servers` key); a transport error and a malformed payload
propagate as exceptions, since the source has no `try`/`except`. -/
theorem fetch_servers_error_behavior (page : Int) (params : Params)
    (http : Params → HttpResult) :
    (http (fetchQuery page params) = HttpResult.transportError →
      fetch_servers page params http = Except.error PyErr.requestException) ∧
    (∀ status body, http (fetchQuery page params) = HttpResult.response status body →
      status ≠ 200 → fetch_servers page params http = Except.ok []) ∧
    (http (fetchQuery page params) = HttpResult.response 200 JsonBody.notJson →
      fetch_servers page params http = Except.error PyErr.jsonDecodeError) ∧
    (http (fetchQuery page params) = HttpResult.response 200 JsonBody.notDict →
      fetch_servers page params http = Except.error PyErr.attributeError) ∧
    (∀ servers, http (fetchQuery page params) =
        HttpResult.response 200 (JsonBody.dict servers) →
      fetch_servers page params http = Except.ok (servers.getD [])) := by
  refine ⟨?_, ?_, ?_, ?_, ?_⟩
  · intro h; simp [fetch_servers, h]
  · intro status body h hs; simp [fetch_servers, h, hs]
  · intro h; simp [fetch_servers, h]
  · intro h; simp [fetch_servers, h]
  · intro servers h; simp [fetch_servers, h]

/-- C2 witness: the non-200 branch of the amended theorem at status 404. -/
theorem fetch_servers_error_behavior_wit :
    ((fun _ => HttpResult.response 404 (JsonBody.dict none)) (fetchQuery 1 ([] : Params)) =
      HttpResult.response 404 (JsonBody.dict none) ∧ (404 : Int) ≠ 200) ∧
    fetch_servers 1 [] (fun _ => HttpResult.response 404 (JsonBody.dict none)) =
      Except.ok [] :=
  ⟨⟨rfl, by decide⟩,
    (fetch_servers_error_behavior 1 [] _).2.1 404 (JsonBody.dict none) rfl (by decide)⟩

/-- C3 counterexample: Backward from `(2, 0)` with a refetch that returns
only 3 items stores offset 15, not the clamped value
`max 0 (floor((3 - 1) / 5) * 5) = 0`. -/
theorem backward_no_clamp_cex :
    (PageButton.callback (fun _ _ => List.replicate 3 Item.blank) Direction.backward
        ⟨List.replicate 20 Item.blank, 2, 0, []⟩).state.page = 1 ∧
    (PageButton.callback (fun _ _ => List.replicate 3 Item.blank) Direction.backward
        ⟨List.replicate 20 Item.blank, 2, 0, []⟩).state.servers.length = 3 ∧
    (PageButton.callback (fun _ _ => List.replicate 3 Item.blank) Direction.backward
        ⟨List.replicate 20 Item.blank, 2, 0, []⟩).state.start_index = 15 ∧
    (PageButton.callback (fun _ _ => List.replicate 3 Item.blank) Direction.backward
        ⟨List.replicate 20 Item.blank, 2, 0, []⟩).state.start_index ≠
      max 0 (((3 : Int) - 1) / 5 * 5) := by
  decide

/-- C3 (amended): Backward from `(p, 0)` with `p > 1` refetches page
`p - 1` and sets the state to `(p - 1, 15)` unconditionally, storing the
refetch result; the stored offset is never clamped, even when the refetch
returns fewer than 16 items. -/
theorem backward_boundary_sets_offset15 (fetch : Int → Params → List Item)
    (s : ServerInfoButtons) (h0 : s.start_index = 0) (hp : 1 < s.page) :
    PageButton.callback fetch Direction.backward s =
      ⟨{ s with page := s.page - 1, start_index := 15,
                servers := fetch (s.page - 1) s.params },
        [(s.page - 1, s.params)]⟩ :=
  callback_bwd_cross fetch s (by omega) (by omega)

/-- C3 witness: the amended theorem applied at `(2, 0)` with a 3-item
refetch. -/
theorem backward_boundary_sets_offset15_wit :
    ((⟨[], 2, 0, []⟩ : ServerInfoButtons).start_index = 0 ∧ (1 : Int) < 2) ∧
    PageButton.callback (fun _ _ => List.replicate 3 Item.blank) Direction.backward
        ⟨[], 2, 0, []⟩ =
      ⟨⟨List.replicate 3 Item.blank, 1, 15, []⟩, [(1, [])]⟩ :=
  ⟨⟨rfl, by decide⟩,
    backward_boundary_sets_offset15 (fun _ _ => List.replicate 3 Item.blank)
      ⟨[], 2, 0, []⟩ rfl (by decide)⟩

/-- C8: Backward from `(1, 0)` is a no-op: the state (including the loaded
servers) is unchanged and no refetch is performed. -/
theorem backward_at_origin_noop (fetch : Int → Params → List Item)
    (s : ServerInfoButtons) (hp : s.page = 1) (h0 : s.start_index = 0) :
    PageButton.callback fetch Direction.backward s = ⟨s, []⟩ := by
  rw [callback_bwd_origin fetch s (by omega) hp]
  obtain ⟨sv, p, si, pr⟩ := s
  simp only at h0
  subst h0
  rfl

/-- C8 witness: a backward click on a fresh page-1 view, against a fetch
that would be visible if it were ever called. -/
theorem backward_at_origin_noop_wit :
    ((⟨[], 1, 0, []⟩ : ServerInfoButtons).page = 1 ∧
      (⟨[], 1, 0, []⟩ : ServerInfoButtons).start_index = 0) ∧
    PageButton.callback (fun _ _ => [Item.blank]) Direction.backward ⟨[], 1, 0, []⟩ =
      ⟨⟨[], 1, 0, []⟩, []⟩ :=
  ⟨⟨rfl, rfl⟩, backward_at_origin_noop (fun _ _ => [Item.blank]) ⟨[], 1, 0, []⟩ rfl rfl⟩

/-- C4: starting from any state whose offset is a multiple of 5 in
`[0, 20)` (in particular the initial offset 0), after any finite sequence
of Forward/Backward events with arbitrary fetch results the stored offset
is still a nonnegative multiple of 5 strictly below 20 — and so is every
intermediate offset, since every prefix is itself such a sequence. -/
theorem offset_always_window_aligned (fetch : Int → Params → List Item)
    (ds : List Direction) (s : ServerInfoButtons) (h : offsetInv s) :
    offsetInv (navTrace fetch ds s).1 := by
  induction ds generalizing s with
  | nil => exact h
  | cons d ds ih =>
      have step := ih (PageButton.callback fetch d s).state (callback_offsetInv fetch d s h)
      simpa only [navTrace] using step

/-- C4 witness: a five-event sequence over an empty-returning fetch,
starting at the initial state `(1, 0)`. -/
theorem offset_always_window_aligned_wit :
    offsetInv ⟨[], 1, 0, []⟩ ∧
    offsetInv (navTrace (fun _ _ => []) [Direction.forward, Direction.forward,
        Direction.backward, Direction.backward, Direction.backward] ⟨[], 1, 0, []⟩).1 :=
  ⟨⟨by decide, by decide, by decide⟩,
    offset_always_window_aligned (fun _ _ => [])
      [Direction.forward, Direction.forward, Direction.backward, Direction.backward,
        Direction.backward] ⟨[], 1, 0, []⟩ ⟨by decide, by decide, by decide⟩⟩

/-- C5 counterexample: an item whose `lastSeen` field is present but not an
ISO date-time makes `ServerButton.callback` raise (`ValueError` from
`datetime.fromisoformat`), instead of degrading to a placeholder. -/
theorem detail_malformed_lastSeen_cex :
    ServerButton.callback ⟨none, none, none, some "garbage", none, none, none⟩ =
      Except.error PyErr.valueError := rfl

/-- C5 (amended): resolving an item's detail record degrades every missing
field to an explicit placeholder (a missing or empty `lastSeen` included)
and never errors there — but a present, non-empty, malformed `lastSeen`
string makes the resolver raise `ValueError`, which propagates to the
caller. -/
theorem detail_resolver_cases (server : Item) :
    (server.lastSeen = none →
      ServerButton.callback server = Except.ok (detailFields server "Unknown")) ∧
    (server.lastSeen = some "" →
      ServerButton.callback server = Except.ok (detailFields server "Unknown")) ∧
    (∀ raw, server.lastSeen = some raw → raw ≠ "" →
      isoParse (pyReplace raw 'Z' "+00:00") = none →
      ServerButton.callback server = Except.error PyErr.valueError) ∧
    (∀ raw ts, server.lastSeen = some raw → raw ≠ "" →
      isoParse (pyReplace raw 'Z' "+00:00") = some ts →
      ServerButton.callback server =
        Except.ok (detailFields server ("<t:" ++ toString ts ++ ":R>"))) := by
  refine ⟨?_, ?_, ?_, ?_⟩
  · intro h; simp [ServerButton.callback, h]
  · intro h; simp [ServerButton.callback, h]
  · intro raw h hne hiso; simp [ServerButton.callback, h, hne, hiso]
  · intro raw ts h hne hiso; simp [ServerButton.callback, h, hne, hiso]

/-- C5 witness: the all-fields-missing item resolves without error, every
field a placeholder. -/
theorem detail_resolver_cases_wit :
    (Item.blank.lastSeen = none) ∧
    ServerButton.callback Item.blank = Except.ok (detailFields Item.blank "Unknown") :=
  ⟨rfl, (detail_resolver_cases Item.blank).1 rfl⟩

/-- C6: from a state at offset 0 whose loaded page has 20 items, three
Forward events move the offset 0→5→10→15 with zero refetches, and a fourth
Forward issues exactly one refetch, for page `p + 1`, ending at
`(p + 1, 0)` (the refetch being non-empty, as the claim assumes). -/
theorem forward_scenario_single_refetch (fetch : Int → Params → List Item)
    (s : ServerInfoButtons) (h0 : s.start_index = 0) (hlen : s.servers.length = 20)
    (hne : fetch (s.page + 1) s.params ≠ []) :
    (navTrace fetch [Direction.forward] s).1.start_index = 5 ∧
    (navTrace fetch [Direction.forward] s).2 = [] ∧
    (navTrace fetch [Direction.forward, Direction.forward] s).1.start_index = 10 ∧
    (navTrace fetch [Direction.forward, Direction.forward] s).2 = [] ∧
    (navTrace fetch [Direction.forward, Direction.forward, Direction.forward]
        s).1.start_index = 15 ∧
    (navTrace fetch [Direction.forward, Direction.forward, Direction.forward]
        s).1.page = s.page ∧
    (navTrace fetch [Direction.forward, Direction.forward, Direction.forward] s).2 = [] ∧
    (navTrace fetch [Direction.forward, Direction.forward, Direction.forward,
        Direction.forward] s).1.page = s.page + 1 ∧
    (navTrace fetch [Direction.forward, Direction.forward, Direction.forward,
        Direction.forward] s).1.start_index = 0 ∧
    (navTrace fetch [Direction.forward, Direction.forward, Direction.forward,
        Direction.forward] s).2 = [(s.page + 1, s.params)] := by
  obtain ⟨sv, p, si, pr⟩ := s
  simp only at h0
  subst h0
  norm_num [navTrace, PageButton.callback, Direction.toInt]

/-- C6 witness: the scenario run concretely from page 1 with 20 loaded
items and a one-item refetch result. -/
theorem forward_scenario_single_refetch_wit :
    ((⟨List.replicate 20 Item.blank, 1, 0, []⟩ : ServerInfoButtons).start_index = 0 ∧
      (⟨List.replicate 20 Item.blank, 1, 0, []⟩ : ServerInfoButtons).servers.length = 20 ∧
      (fun (_ : Int) (_ : Params) => [Item.blank]) 2 [] ≠ []) ∧
    (navTrace (fun _ _ => [Item.blank]) [Direction.forward, Direction.forward,
        Direction.forward, Direction.forward]
      ⟨List.replicate 20 Item.blank, 1, 0, []⟩).2 = [(2, [])] :=
  ⟨⟨rfl, by decide, by decide⟩,
    (forward_scenario_single_refetch (fun _ _ => [Item.blank])
      ⟨List.replicate 20 Item.blank, 1, 0, []⟩ rfl (by decide) (by decide)).2.2.2.2.2.2.2.2.2⟩

/-- C7: Forward followed by Backward from `(p, o)` with `p ≥ 1` and
`o ∈ {0, 5, 10, 15}` returns the session to exactly `(p, o)`, under the
claim's proviso that every boundary refetch succeeds (returns a non-empty
page). -/
theorem forward_backward_roundtrip (fetch : Int → Params → List Item)
    (s : ServerInfoButtons) (hp : 1 ≤ s.page)
    (ho : s.start_index = 0 ∨ s.start_index = 5 ∨ s.start_index = 10 ∨
      s.start_index = 15)
    (hfetch : ∀ p q, fetch p q ≠ []) :
    (navTrace fetch [Direction.forward, Direction.backward] s).1.page = s.page ∧
    (navTrace fetch [Direction.forward, Direction.backward] s).1.start_index =
      s.start_index := by
  obtain ⟨sv, p, si, pr⟩ := s
  simp only at hp ho ⊢
  rcases ho with h | h | h | h <;> subst h <;>
    norm_num [navTrace, PageButton.callback, Direction.toInt] <;>
    rw [if_neg (by omega)] <;> exact ⟨rfl, rfl⟩

/-- C7 witness: the round trip from `(3, 15)`, the case that crosses the
boundary both ways. -/
theorem forward_backward_roundtrip_wit :
    ((1 : Int) ≤ 3 ∧
      ((⟨[], 3, 15, []⟩ : ServerInfoButtons).start_index = 0 ∨
        (⟨[], 3, 15, []⟩ : ServerInfoButtons).start_index = 5 ∨
        (⟨[], 3, 15, []⟩ : ServerInfoButtons).start_index = 10 ∨
        (⟨[], 3, 15, []⟩ : ServerInfoButtons).start_index = 15) ∧
      (∀ p q, (fun (_ : Int) (_ : Params) => [Item.blank]) p q ≠ [])) ∧
    ((navTrace (fun _ _ => [Item.blank]) [Direction.forward, Direction.backward]
        ⟨[], 3, 15, []⟩).1.page = 3 ∧
      (navTrace (fun _ _ => [Item.blank]) [Direction.forward, Direction.backward]
        ⟨[], 3, 15, []⟩).1.start_index = 15) :=
  ⟨⟨by decide, Or.inr (Or.inr (Or.inr rfl)), fun _ _ => List.cons_ne_nil Item.blank []⟩,
    forward_backward_roundtrip (fun _ _ => [Item.blank]) ⟨[], 3, 15, []⟩
      (by decide) (Or.inr (Or.inr (Or.inr rfl)))
      (fun _ _ => List.cons_ne_nil Item.blank [])⟩

/-- C9: the filter params captured at view construction are never mutated
by a navigation event (nor by any sequence of them), and every refetch a
navigation issues passes exactly those params together with the new page
number — the wire query being the params with `page` appended, the filter
entries untouched. -/
theorem filters_passthrough_unmutated (fetch : Int → Params → List Item)
    (s : ServerInfoButtons) (hk : "page" ∉ s.params.map Prod.fst) :
    (∀ d, (PageButton.callback fetch d s).state.params = s.params) ∧
    (∀ ds, (navTrace fetch ds s).1.params = s.params) ∧
    (∀ d, ∀ r ∈ (PageButton.callback fetch d s).fetches,
      r.2 = s.params ∧
      fetchQuery r.1 r.2 = s.params ++ [("page", Val.int r.1)]) := by
  refine ⟨fun d => callback_params fetch d s, fun ds => navTrace_params fetch ds s, ?_⟩
  intro d r hr
  have h2 := callback_fetches_params fetch d s r hr
  exact ⟨h2, by rw [h2]; exact setKey_not_mem _ _ _ hk⟩

/-- C9 witness: a boundary-crossing Forward from `(1, 15)` with one filter
set; the stored params survive and the issued query is the filter plus the
page number. -/
theorem filters_passthrough_unmutated_wit :
    ("page" ∉ ([("software", Val.str "Paper")] : Params).map Prod.fst) ∧
    (navTrace (fun _ _ => []) [Direction.forward]
        ⟨[], 1, 15, [("software", Val.str "Paper")]⟩).1.params =
      [("software", Val.str "Paper")] :=
  ⟨by decide,
    (filters_passthrough_unmutated (fun _ _ => [])
      ⟨[], 1, 15, [("software", Val.str "Paper")]⟩ (by decide)).2.1 [Direction.forward]⟩

/-- C10: `map_authmode` is total and case-insensitive: an input lowercasing
to `online`, `offline` or `whitelist` yields that mode's fixed icon/text
pair; anything else — `None` and the empty string included — yields the
fixed Unknown placeholder, and no input errors. -/
theorem map_authmode_total_cases (a : Option String) :
    (pyLower (a.getD "") = "online" →
      map_authmode a = ⟨":white_check_mark:", "Online Mode"⟩) ∧
    (pyLower (a.getD "") = "offline" →
      map_authmode a = ⟨":x:", "Offline (Cracked)"⟩) ∧
    (pyLower (a.getD "") = "whitelist" →
      map_authmode a = ⟨":lock:", "Whitelisted"⟩) ∧
    (pyLower (a.getD "") ≠ "online" → pyLower (a.getD "") ≠ "offline" →
      pyLower (a.getD "") ≠ "whitelist" →
      map_authmode a = ⟨":question:", "Unknown"⟩) ∧
    (a = none → map_authmode a = ⟨":question:", "Unknown"⟩) ∧
    (a = some "" → map_authmode a = ⟨":question:", "Unknown"⟩) := by
  refine ⟨?_, ?_, ?_, ?_, ?_, ?_⟩
  · intro h; simp [map_authmode, auth_map, List.lookup, h]
  · intro h; simp [map_authmode, auth_map, List.lookup, h]
  · intro h; simp [map_authmode, auth_map, List.lookup, h]
  · intro h1 h2 h3
    have e1 := beq_eq_false_iff_ne.mpr h1
    have e2 := beq_eq_false_iff_ne.mpr h2
    have e3 := beq_eq_false_iff_ne.mpr h3
    simp [map_authmode, auth_map, List.lookup, e1, e2, e3]
  · intro h; subst h; rfl
  · intro h; subst h; rfl

/-- C10 witness: the uppercase input `ONLINE` hits the online pair through
the lowercasing. -/
theorem map_authmode_total_cases_wit :
    (pyLower ((some "ONLINE").getD "") = "online") ∧
    map_authmode (some "ONLINE") = ⟨":white_check_mark:", "Online Mode"⟩ :=
  ⟨rfl, (map_authmode_total_cases (some "ONLINE")).1 rfl⟩

end MineScan
